import Mathlib

/-!
Shallow embedding of the goalhero-payment-jobs escrow/auto-release core.

Times are modelled as integers (Go `time.Time` instants in nanoseconds);
`time.Now()` becomes an explicit `now` parameter, durations are integer
nanosecond counts.  Monetary amounts and ratings (Go `float64`) are
modelled as rationals; Go `math.Round` (round half away from zero) is
`goRound`.  Record mutation becomes explicit state passing; the Firestore
store and the Stripe gateway are collaborators whose outcomes are passed
in as parameters; Slack webhook posts become emitted `Notification`
events.
-/

namespace GoalHero

/-- Escrow status constants from `models/payment.go`. -/
inductive EscrowStatus where
  | held
  | pendingRating
  | approved
  | released
  | disputed
  | resolved
  | refunded
  deriving DecidableEq, Repr

/-- The Go string value of each escrow status constant. -/
def EscrowStatus.str : EscrowStatus → String
  | .held => "held"
  | .pendingRating => "pending_rating"
  | .approved => "approved"
  | .released => "released"
  | .disputed => "disputed"
  | .resolved => "resolved"
  | .refunded => "refunded"

/-- `models.EscrowTransaction` from `models/payment.go`. -/
structure EscrowTransaction where
  id : String
  gameID : String
  organizerID : String
  paymentID : String
  amount : ℚ
  status : EscrowStatus
  heldAt : Int
  releasedAt : Option Int
  releaseReason : String
  disputeID : String
  releaseEligibleAt : Int
  ratingReceived : Bool
  ratingApproved : Bool
  minRatingRequired : ℚ
  actualRating : ℚ
  reviewedBy : String
  deriving DecidableEq, Repr

/-- One nanosecond-count hour, mirroring Go `time.Hour`. -/
def hourNs : Int := 3600 * 1000000000

/-- The 24-hour no-rating grace period used by the auto-release rule
(`escrow.ReleaseEligibleAt.Add(24 * time.Hour)`). -/
def graceNs : Int := 24 * hourNs

/-- Outbound notification events (Slack webhook posts in the source). -/
inductive Notification where
  | manualReview (escrowID : String) (actualRating minRequired : ℚ)
  | success (escrowID : String) (amount : ℚ) (reason : String)
  | failure (escrowID : String) (amount : ℚ) (errMsg : String)
  deriving DecidableEq, Repr

/-- Result of one evaluation of the eligibility decision: the returned
boolean, the (possibly mutated) escrow record, and the Slack alerts the
evaluation sent. -/
structure EligibilityResult where
  eligible : Bool
  escrow : EscrowTransaction
  alerts : List Notification
  deriving DecidableEq, Repr

/-- `PaymentService.isEligibleForAutoRelease` from the payment service.
Go checks `time.Now().Before(escrow.ReleaseEligibleAt)` first, then the
disputed status, then the rating branch (which mutates
`escrow.RatingApproved` on approval and posts a Slack alert on a poor
rating), and finally the strict `time.Now().After(graceDeadline)` check
for the no-rating fallback. -/
def isEligibleForAutoRelease (now : Int) (escrow : EscrowTransaction) :
    EligibilityResult :=
  if now < escrow.releaseEligibleAt then
    ⟨false, escrow, []⟩
  else if escrow.status = EscrowStatus.disputed then
    ⟨false, escrow, []⟩
  else if escrow.ratingReceived then
    if escrow.minRatingRequired ≤ escrow.actualRating then
      ⟨true, { escrow with ratingApproved := true }, []⟩
    else
      ⟨false, escrow,
        [Notification.manualReview escrow.id escrow.actualRating
          escrow.minRatingRequired]⟩
  else
    if escrow.releaseEligibleAt + graceNs < now then
      ⟨true, escrow, []⟩
    else
      ⟨false, escrow, []⟩

/-- Builder for concrete escrow records used in concrete evaluations. -/
def mkEscrow (status : EscrowStatus) (releaseEligibleAt : Int)
    (ratingReceived : Bool) (actualRating minRatingRequired : ℚ) :
    EscrowTransaction :=
  { id := "escrow-1"
    gameID := "game-1"
    organizerID := "org-1"
    paymentID := "pay-1"
    amount := 24
    status := status
    heldAt := 0
    releasedAt := none
    releaseReason := ""
    disputeID := ""
    releaseEligibleAt := releaseEligibleAt
    ratingReceived := ratingReceived
    ratingApproved := false
    minRatingRequired := minRatingRequired
    actualRating := actualRating
    reviewedBy := "" }

/-- Outcome of `PaymentService.ProcessEscrowRelease`: the Go `error`
return, the stored escrow record after the call, whether the Stripe
gateway was invoked, whether the store write happened, and the Slack
notifications sent. -/
structure ReleaseOutcome where
  result : Except String Unit
  escrow : EscrowTransaction
  gatewayCalled : Bool
  storeWritten : Bool
  notifications : List Notification
  deriving Repr

/-- `PaymentService.ProcessEscrowRelease`.  The escrow fetched by id is
`escrow`; `gateway` is the outcome of `stripeService.ReleaseEscrowFunds`
and `store` the outcome of `updateEscrowTransaction`, both opaque
collaborators in the source.  The status guard runs before the gateway
call; on gateway failure the function returns before any mutation or
store write; the success Slack notification is sent only after the
store write succeeds. -/
def ProcessEscrowRelease (gateway store : Except String Unit) (now : Int)
    (escrow : EscrowTransaction) (releaseReason : String) : ReleaseOutcome :=
  if escrow.status ≠ EscrowStatus.held ∧ escrow.status ≠ EscrowStatus.approved then
    { result := .error ("escrow cannot be released, current status: " ++
        escrow.status.str)
      escrow := escrow
      gatewayCalled := false
      storeWritten := false
      notifications := [] }
  else
    match gateway with
    | .error e =>
        { result := .error ("failed to release funds via Stripe: " ++ e)
          escrow := escrow
          gatewayCalled := true
          storeWritten := false
          notifications := [] }
    | .ok _ =>
        let updated : EscrowTransaction :=
          { escrow with
              status := EscrowStatus.released
              releasedAt := some now
              releaseReason := releaseReason }
        match store with
        | .error e =>
            { result := .error ("failed to update escrow transaction: " ++ e)
              escrow := escrow
              gatewayCalled := true
              storeWritten := false
              notifications := [] }
        | .ok _ =>
            { result := .ok ()
              escrow := updated
              gatewayCalled := true
              storeWritten := true
              notifications :=
                [Notification.success escrow.id escrow.amount releaseReason] }

/-- Accumulated state of one `ProcessAutomaticReleases` pass: the counters
and error strings the Go function returns, plus the final stored escrow
records (in input order) and all notifications emitted. -/
structure PassState where
  processed : Nat
  failed : Nat
  errors : List String
  totalReleased : ℚ
  escrows : List EscrowTransaction
  notifications : List Notification
  deriving DecidableEq, Repr

/-- Loop body of `ProcessAutomaticReleases` for a single escrow.  `gw`
gives the Stripe gateway outcome per escrow id (store writes are modelled
as succeeding).  Go calls `isEligibleForAutoRelease` (whose in-memory
`RatingApproved` mutation is not persisted: `ProcessEscrowRelease`
re-fetches the stored record by id), then on eligibility runs the release
and emits a success or failure Slack notification; otherwise it writes
the escrow back with status `pending_rating`. -/
def processOne (gw : String → Except String Unit) (now : Int)
    (st : PassState) (escrow : EscrowTransaction) : PassState :=
  let elig := isEligibleForAutoRelease now escrow
  let notifs := st.notifications ++ elig.alerts
  if elig.eligible then
    let out := ProcessEscrowRelease (gw escrow.id) (.ok ()) now escrow
      "automatic_release"
    match out.result with
    | .error msg =>
        { processed := st.processed
          failed := st.failed + 1
          errors := st.errors ++ ["Escrow " ++ escrow.id ++ ": " ++ msg]
          totalReleased := st.totalReleased
          escrows := st.escrows ++ [out.escrow]
          notifications := notifs ++ out.notifications ++
            [Notification.failure escrow.id escrow.amount msg] }
    | .ok _ =>
        { processed := st.processed + 1
          failed := st.failed
          errors := st.errors
          totalReleased := st.totalReleased + escrow.amount
          escrows := st.escrows ++ [out.escrow]
          notifications := notifs ++ out.notifications ++
            [Notification.success escrow.id escrow.amount "automatic_release"] }
  else
    { st with
        escrows := st.escrows ++
          [{ escrow with status := EscrowStatus.pendingRating }]
        notifications := notifs }

/-- `PaymentService.ProcessAutomaticReleases` over the list of escrows
returned by the store query, folding the loop body over the list. -/
def ProcessAutomaticReleases (gw : String → Except String Unit) (now : Int)
    (escrows : List EscrowTransaction) : PassState :=
  escrows.foldl (processOne gw now)
    { processed := 0
      failed := 0
      errors := []
      totalReleased := 0
      escrows := []
      notifications := [] }

/-- The Firestore query filter of
`PaymentService.GetEligibleEscrowReleases`: status equals `held` and
`releaseEligibleAt ≤ now`. -/
def eligibleQuery (now : Int) (escrow : EscrowTransaction) : Bool :=
  escrow.status = EscrowStatus.held && decide (escrow.releaseEligibleAt ≤ now)

/-- `PaymentService.GetEligibleEscrowReleases`, with the stored collection
passed in explicitly. -/
def GetEligibleEscrowReleases (now : Int)
    (stored : List EscrowTransaction) : List EscrowTransaction :=
  stored.filter (eligibleQuery now)

/-- Go `math.Round`: round half away from zero. -/
def goRound (q : ℚ) : Int :=
  if 0 ≤ q then ⌊q + 1 / 2⌋ else -⌊-q + 1 / 2⌋

/-- Round to two decimal places as the source does:
`math.Round(x*100)/100`. -/
def round2 (q : ℚ) : ℚ := (goRound (q * 100) : ℚ) / 100

/-- `models.PlatformFeePercentage` (4%). -/
def PlatformFeePercentage : ℚ := 4

/-- `StripeConnectService.CalculateFees`: platform fee 4% of the amount,
Stripe fee 1.65% plus a 0.25 EUR fixed surcharge, net amount equal to the
amount minus the (already rounded) platform fee, each rounded to two
decimals independently. -/
def CalculateFees (amount : ℚ) : ℚ × ℚ × ℚ :=
  let platformFee := round2 (amount * PlatformFeePercentage / 100)
  let stripeFee := round2 (amount * (165 / 100) / 100 + 25 / 100)
  let netAmount := round2 (amount - platformFee)
  (platformFee, stripeFee, netAmount)

/-- `services.JobConfig` from the background job manager.  The three
intervals are Go `time.Duration` nanosecond counts. -/
structure JobConfig where
  ratingReminderInterval : Int
  autoReleaseInterval : Int
  disputeEscalationInterval : Int
  ratingDeadlineDays : Int
  minRatingForAutoRelease : ℚ
  disputeEscalationHours : Int
  deriving DecidableEq, Repr

/-- `services.JobStatus`: runtime telemetry for one background job. -/
structure JobStatus where
  jobName : String
  lastRun : Int
  nextScheduled : Int
  lastResult : String
  runCount : Nat
  errorCount : Nat
  averageRuntime : String
  isRunning : Bool
  enabled : Bool
  deriving DecidableEq, Repr

/-- `services.JobHealth`: aggregate health of the job system. -/
structure JobHealth where
  healthy : Bool
  totalJobs : Nat
  runningJobs : Nat
  failedJobs : Nat
  lastHealthCheck : Int
  deriving DecidableEq, Repr

/-- The per-job failure test inside `GetJobHealth`:
`status.ErrorCount > status.RunCount/2` with Go integer division. -/
def jobFailed (s : JobStatus) : Bool :=
  decide (s.runCount / 2 < s.errorCount)

/-- `services.GetJobHealth` over the snapshot of job statuses: counts
running and failed jobs and reports healthy exactly when no job is
failed. -/
def GetJobHealth (now : Int) (statuses : List JobStatus) : JobHealth :=
  { healthy := decide (statuses.countP (fun s => jobFailed s) = 0)
    totalJobs := statuses.length
    runningJobs := statuses.countP (fun s => s.isRunning)
    failedJobs := statuses.countP (fun s => jobFailed s)
    lastHealthCheck := now }

/-- `services.BackgroundJobManager` (the parts the config/trigger
operations read: the running flag and the shared config). -/
structure BackgroundJobManager where
  config : JobConfig
  running : Bool
  deriving DecidableEq, Repr

/-- `services.TriggerRatingReminder`: errors when the package-level
`jobManager` is nil, otherwise dispatches the job body. -/
def TriggerRatingReminder (jobManager : Option BackgroundJobManager) :
    Except String Unit :=
  match jobManager with
  | none => .error "job manager not initialized"
  | some _ => .ok ()

/-- `services.TriggerAutoRelease`: errors when `jobManager` is nil. -/
def TriggerAutoRelease (jobManager : Option BackgroundJobManager) :
    Except String Unit :=
  match jobManager with
  | none => .error "job manager not initialized"
  | some _ => .ok ()

/-- `services.TriggerDisputeEscalation`: errors when `jobManager` is nil. -/
def TriggerDisputeEscalation (jobManager : Option BackgroundJobManager) :
    Except String Unit :=
  match jobManager with
  | none => .error "job manager not initialized"
  | some _ => .ok ()

/-- `services.GetJobConfig`: returns nil (not an error) when the manager
was never started, otherwise the current config. -/
def GetJobConfig (jobManager : Option BackgroundJobManager) :
    Option JobConfig :=
  match jobManager with
  | none => none
  | some jm => some jm.config

/-- The per-entry `nextScheduled` recompute of `services.UpdateJobConfig`
on the job-status map (keyed by the Go map key). -/
def updateNextScheduled (now : Int) (cfg : JobConfig)
    (kv : String × JobStatus) : String × JobStatus :=
  if kv.1 = "rating_reminder" then
    (kv.1, { kv.2 with nextScheduled := now + cfg.ratingReminderInterval })
  else if kv.1 = "auto_release" then
    (kv.1, { kv.2 with nextScheduled := now + cfg.autoReleaseInterval })
  else if kv.1 = "dispute_escalation" then
    (kv.1, { kv.2 with nextScheduled := now + cfg.disputeEscalationInterval })
  else kv

/-- `services.UpdateJobConfig`: errors when `jobManager` is nil, otherwise
swaps the config and recomputes each job's next scheduled time. -/
def UpdateJobConfig (jobManager : Option BackgroundJobManager)
    (statuses : List (String × JobStatus)) (now : Int)
    (newConfig : JobConfig) :
    Except String (BackgroundJobManager × List (String × JobStatus)) :=
  match jobManager with
  | none => .error "job manager not initialized"
  | some jm =>
      .ok ({ jm with config := newConfig },
        statuses.map (updateNextScheduled now newConfig))

/-- An HTTP response from the job handlers, reduced to status code,
success flag and error text. -/
structure HandlerResponse where
  status : Nat
  success : Bool
  error : Option String
  deriving DecidableEq, Repr

/-- Conversion of a service-layer error to the response of the
`TriggerJob` handler. -/
def triggerRespond (r : Except String Unit) : HandlerResponse :=
  match r with
  | .error e => { status := 500, success := false, error := some e }
  | .ok _ => { status := 200, success := true, error := none }

/-- `handlers.TriggerJob` (POST /api/jobs/trigger/:jobName): dispatches on
the job name, rejecting unknown names with a 400 validation error. -/
def TriggerJob (jobManager : Option BackgroundJobManager)
    (jobName : String) : HandlerResponse :=
  if jobName = "rating-reminder" then
    triggerRespond (TriggerRatingReminder jobManager)
  else if jobName = "auto-release" then
    triggerRespond (TriggerAutoRelease jobManager)
  else if jobName = "dispute-escalation" then
    triggerRespond (TriggerDisputeEscalation jobManager)
  else
    { status := 400, success := false, error := some "Invalid job name" }

/-- `handlers.GetJobConfig` (GET /api/jobs/config): maps the nil config
from the service layer to a 500 "Job manager not initialized" response. -/
def GetJobConfigHandler (jobManager : Option BackgroundJobManager) :
    HandlerResponse :=
  match GetJobConfig jobManager with
  | none =>
      { status := 500
        success := false
        error := some "Job manager not initialized" }
  | some _ => { status := 200, success := true, error := none }

/-- `handlers.UpdateJobConfig` (POST /api/jobs/config) after a successful
JSON bind: surfaces the service-layer error as a 500 response. -/
def UpdateJobConfigHandler (jobManager : Option BackgroundJobManager)
    (statuses : List (String × JobStatus)) (now : Int)
    (newConfig : JobConfig) : HandlerResponse :=
  match UpdateJobConfig jobManager statuses now newConfig with
  | .error e => { status := 500, success := false, error := some e }
  | .ok _ => { status := 200, success := true, error := none }

/-- Builder for concrete job status records used in concrete evaluations. -/
def mkJobStatus (runCount errorCount : Nat) : JobStatus :=
  { jobName := "Auto Release"
    lastRun := 0
    nextScheduled := 0
    lastResult := "Not run yet"
    runCount := runCount
    errorCount := errorCount
    averageRuntime := "0s"
    isRunning := false
    enabled := true }

/-- Claim C1: a disputed escrow is never eligible for auto-release, at any
evaluation time and regardless of the rating fields. -/
theorem C1_disputed_never_eligible (now : Int) (e : EscrowTransaction)
    (h : e.status = EscrowStatus.disputed) :
    (isEligibleForAutoRelease now e).eligible = false := by
  unfold isEligibleForAutoRelease
  split <;> simp_all

/-- Claim C1 witness: a concrete disputed escrow with a high rating, well
past its grace deadline, is still not eligible. -/
theorem C1_witness :
    (isEligibleForAutoRelease (graceNs + graceNs)
      (mkEscrow EscrowStatus.disputed 0 true 5 3)).eligible = false :=
  C1_disputed_never_eligible (graceNs + graceNs)
    (mkEscrow EscrowStatus.disputed 0 true 5 3) rfl

/-- Claim C2 counterexample: with `releaseEligibleAt = 0`, no rating and
status `held`, evaluation exactly at the grace boundary `now = T + 24h`
returns not-eligible, refuting the claim that eligibility is true for
every `now ≥ T + 24h` including the boundary instant (the source uses the
strict `time.Now().After(graceDeadline)`). -/
theorem C2_counterexample :
    (isEligibleForAutoRelease (0 + graceNs)
      (mkEscrow EscrowStatus.held 0 false 0 3)).eligible = false := by
  rfl

/-- Claim C2 (amended): for an escrow with no rating received and a
non-disputed status, auto-release eligibility at time `now` holds exactly
when `now` is strictly after `releaseEligibleAt + 24h`; in particular it
is false on the closed interval `[T, T + 24h]`. -/
theorem C2_no_rating_eligibility_iff (now : Int) (e : EscrowTransaction)
    (hr : e.ratingReceived = false)
    (hs : e.status ≠ EscrowStatus.disputed) :
    (isEligibleForAutoRelease now e).eligible = true ↔
      e.releaseEligibleAt + graceNs < now := by
  have hg : (0 : Int) < graceNs := by norm_num [graceNs, hourNs]
  unfold isEligibleForAutoRelease
  split <;> simp_all
  · omega
  · split <;> simp_all

/-- Claim C2 witness: a concrete no-rating escrow evaluated one
nanosecond after the grace boundary is eligible. -/
theorem C2_witness :
    (isEligibleForAutoRelease (graceNs + 1)
        (mkEscrow EscrowStatus.held 0 false 0 3)).eligible = true ↔
      (mkEscrow EscrowStatus.held 0 false 0 3).releaseEligibleAt + graceNs <
        graceNs + 1 :=
  C2_no_rating_eligibility_iff (graceNs + 1)
    (mkEscrow EscrowStatus.held 0 false 0 3) rfl (by decide)

/-- Evaluation of the eligibility decision in the poor-rating branch: not
eligible, exactly one manual-review alert carrying the escrow id, actual
rating and minimum required, and no record mutation. -/
theorem elig_poor_rating (now : Int) (e : EscrowTransaction)
    (h1 : e.ratingReceived = true)
    (h2 : e.actualRating < e.minRatingRequired)
    (h3 : e.status ≠ EscrowStatus.disputed)
    (h4 : e.releaseEligibleAt ≤ now) :
    isEligibleForAutoRelease now e =
      ⟨false, e,
        [Notification.manualReview e.id e.actualRating e.minRatingRequired]⟩ := by
  unfold isEligibleForAutoRelease
  rw [if_neg (not_lt.mpr h4), if_neg h3, h1, if_pos rfl,
    if_neg (not_le.mpr h2)]

/-- Claim C3 counterexample: one pass over a held escrow whose received
rating 2.0 is below the 3.0 minimum leaves the stored status as
`pending_rating`, not `held` — the pass writes the record back with
`pending_rating` — refuting the part of the claim that says the status is
still `held` after the pass (the manual-review notification is indeed
emitted exactly once). -/
theorem C3_counterexample :
    ((ProcessAutomaticReleases (fun _ => .ok ()) 5
        [mkEscrow EscrowStatus.held 0 true 2 3]).escrows.map (·.status)) =
      [EscrowStatus.pendingRating] ∧
    EscrowStatus.pendingRating ≠ EscrowStatus.held ∧
    (ProcessAutomaticReleases (fun _ => .ok ()) 5
        [mkEscrow EscrowStatus.held 0 true 2 3]).notifications =
      [Notification.manualReview "escrow-1" 2 3] :=
  ⟨rfl, by decide, rfl⟩

/-- Claim C3 (amended): when the auto-release pass evaluates an escrow
with a received rating below the minimum (not disputed, past its release
time), it emits the manual-review notification (escrow id, actual rating,
minimum required) exactly once for that evaluation, and writes the escrow
back with status `pending_rating` (the status does not remain `held`). -/
theorem C3_poor_rating_review (gw : String → Except String Unit) (now : Int)
    (st : PassState) (e : EscrowTransaction)
    (h1 : e.ratingReceived = true)
    (h2 : e.actualRating < e.minRatingRequired)
    (h3 : e.status ≠ EscrowStatus.disputed)
    (h4 : e.releaseEligibleAt ≤ now) :
    (processOne gw now st e).notifications =
      st.notifications ++
        [Notification.manualReview e.id e.actualRating e.minRatingRequired] ∧
    (processOne gw now st e).escrows =
      st.escrows ++ [{ e with status := EscrowStatus.pendingRating }] := by
  unfold processOne
  rw [elig_poor_rating now e h1 h2 h3 h4]
  exact ⟨rfl, rfl⟩

/-- Claim C3 witness: the amended statement evaluated on a concrete held
escrow with rating 2.0 against minimum 3.0 in an empty pass state. -/
theorem C3_witness :
    (processOne (fun _ => .ok ()) 5
        ⟨0, 0, [], 0, [], []⟩ (mkEscrow EscrowStatus.held 0 true 2 3)).notifications =
      ([] : List Notification) ++
        [Notification.manualReview "escrow-1" 2 3] ∧
    (processOne (fun _ => .ok ()) 5
        ⟨0, 0, [], 0, [], []⟩ (mkEscrow EscrowStatus.held 0 true 2 3)).escrows =
      ([] : List EscrowTransaction) ++
        [{ mkEscrow EscrowStatus.held 0 true 2 3 with
            status := EscrowStatus.pendingRating }] :=
  C3_poor_rating_review (fun _ => .ok ()) 5 ⟨0, 0, [], 0, [], []⟩
    (mkEscrow EscrowStatus.held 0 true 2 3) rfl (by norm_num [mkEscrow])
    (by decide) (by decide)

/-- Claim C4: for an escrow with a received rating, not disputed,
evaluated at or after its release-eligible time, eligibility holds
exactly when the actual rating meets the minimum required, and in the
eligible case the returned record has `ratingApproved = true`. -/
theorem C4_rating_gate (now : Int) (e : EscrowTransaction)
    (h1 : e.ratingReceived = true)
    (h3 : e.status ≠ EscrowStatus.disputed)
    (h4 : e.releaseEligibleAt ≤ now) :
    ((isEligibleForAutoRelease now e).eligible = true ↔
      e.minRatingRequired ≤ e.actualRating) ∧
    (e.minRatingRequired ≤ e.actualRating →
      (isEligibleForAutoRelease now e).escrow.ratingApproved = true) := by
  unfold isEligibleForAutoRelease
  rw [if_neg (not_lt.mpr h4), if_neg h3, h1, if_pos rfl]
  constructor
  · split <;> simp_all
  · intro h
    rw [if_pos h]

/-- Claim C4 witness: a held escrow rated 4.5 against minimum 3.0,
evaluated past its release time, is eligible with `ratingApproved`
set. -/
theorem C4_witness :
    ((isEligibleForAutoRelease 5
        (mkEscrow EscrowStatus.held 0 true (9 / 2) 3)).eligible = true ↔
      (mkEscrow EscrowStatus.held 0 true (9 / 2) 3).minRatingRequired ≤
        (mkEscrow EscrowStatus.held 0 true (9 / 2) 3).actualRating) ∧
    ((mkEscrow EscrowStatus.held 0 true (9 / 2) 3).minRatingRequired ≤
        (mkEscrow EscrowStatus.held 0 true (9 / 2) 3).actualRating →
      (isEligibleForAutoRelease 5
        (mkEscrow EscrowStatus.held 0 true (9 / 2) 3)).escrow.ratingApproved =
        true) :=
  C4_rating_gate 5 (mkEscrow EscrowStatus.held 0 true (9 / 2) 3) rfl
    (by decide) (by decide)

/-- Claim C5: `CalculateFees` computes `round2(gross * 4%)`,
`round2(gross * 1.65% + 0.25)` and `round2(gross - platformFee)`, each
rounded to two decimals independently; and on gross = 25.0 it returns
platform fee 1.00, processing fee 0.66 and net amount 24.00. -/
theorem C5_fee_formulae (gross : ℚ) :
    (CalculateFees gross).1 = round2 (gross * (4 / 100)) ∧
    (CalculateFees gross).2.1 = round2 (gross * (165 / 10000) + 1 / 4) ∧
    (CalculateFees gross).2.2 = round2 (gross - (CalculateFees gross).1) ∧
    CalculateFees 25 = (1, 66 / 100, 24) := by
  refine ⟨?_, ?_, rfl, ?_⟩
  · show round2 (gross * PlatformFeePercentage / 100) =
      round2 (gross * (4 / 100))
    congr 1
    simp only [PlatformFeePercentage]
    ring
  · show round2 (gross * (165 / 100) / 100 + 25 / 100) =
      round2 (gross * (165 / 10000) + 1 / 4)
    congr 1
    ring
  · norm_num [CalculateFees, round2, goRound, PlatformFeePercentage]

/-- Claim C6: manual escrow release succeeds only from status `held` or
`approved` — any other status yields the "cannot be released" error
without invoking the payment gateway and leaves the record unchanged —
and whenever the gateway release call fails, no store write happens and
the stored record (status, releasedAt, releaseReason) is unchanged, so a
later pass can retry. -/
theorem C6_manual_release_guard :
    (∀ (gateway store : Except String Unit) (now : Int)
        (e : EscrowTransaction) (reason : String),
      e.status ≠ EscrowStatus.held → e.status ≠ EscrowStatus.approved →
        (ProcessEscrowRelease gateway store now e reason).result =
          .error ("escrow cannot be released, current status: " ++
            e.status.str) ∧
        (ProcessEscrowRelease gateway store now e reason).gatewayCalled =
          false ∧
        (ProcessEscrowRelease gateway store now e reason).escrow = e) ∧
    (∀ (msg : String) (store : Except String Unit) (now : Int)
        (e : EscrowTransaction) (reason : String),
      (ProcessEscrowRelease (.error msg) store now e reason).storeWritten =
        false ∧
      (ProcessEscrowRelease (.error msg) store now e reason).escrow = e) := by
  constructor
  · intro gateway store now e reason h1 h2
    unfold ProcessEscrowRelease
    rw [if_pos ⟨h1, h2⟩]
    exact ⟨rfl, rfl, rfl⟩
  · intro msg store now e reason
    unfold ProcessEscrowRelease
    split
    · exact ⟨rfl, rfl⟩
    · exact ⟨rfl, rfl⟩

/-- Claim C6 witness: a disputed escrow is rejected with the
status-specific error and no gateway call; a held escrow whose gateway
release fails keeps its stored record unchanged with no store write. -/
theorem C6_witness :
    ((ProcessEscrowRelease (.ok ()) (.ok ()) 5
        (mkEscrow EscrowStatus.disputed 0 false 0 3) "manual").result =
      .error ("escrow cannot be released, current status: " ++
        (mkEscrow EscrowStatus.disputed 0 false 0 3).status.str) ∧
      (ProcessEscrowRelease (.ok ()) (.ok ()) 5
        (mkEscrow EscrowStatus.disputed 0 false 0 3) "manual").gatewayCalled =
        false ∧
      (ProcessEscrowRelease (.ok ()) (.ok ()) 5
        (mkEscrow EscrowStatus.disputed 0 false 0 3) "manual").escrow =
        mkEscrow EscrowStatus.disputed 0 false 0 3) ∧
    ((ProcessEscrowRelease (.error "stripe unavailable") (.ok ()) 5
        (mkEscrow EscrowStatus.held 0 false 0 3) "manual").storeWritten =
        false ∧
      (ProcessEscrowRelease (.error "stripe unavailable") (.ok ()) 5
        (mkEscrow EscrowStatus.held 0 false 0 3) "manual").escrow =
        mkEscrow EscrowStatus.held 0 false 0 3) :=
  ⟨C6_manual_release_guard.1 (.ok ()) (.ok ()) 5
      (mkEscrow EscrowStatus.disputed 0 false 0 3) "manual"
      (by decide) (by decide),
    C6_manual_release_guard.2 "stripe unavailable" (.ok ()) 5
      (mkEscrow EscrowStatus.held 0 false 0 3) "manual"⟩

/-- Claim C7: the aggregate health report counts a job as failed exactly
when its error count exceeds half its run count, and is healthy exactly
when no job is failed; a job with 10 runs and 5 errors is not failed,
with 6 errors it is. -/
theorem C7_health_failed_iff :
    (∀ s : JobStatus, jobFailed s = true ↔ s.runCount < 2 * s.errorCount) ∧
    (∀ (now : Int) (statuses : List JobStatus),
      (GetJobHealth now statuses).healthy = true ↔
        ∀ s ∈ statuses, jobFailed s = false) ∧
    jobFailed (mkJobStatus 10 5) = false ∧
    jobFailed (mkJobStatus 10 6) = true := by
  refine ⟨?_, ?_, by decide, by decide⟩
  · intro s
    simp only [jobFailed, decide_eq_true_eq]
    omega
  · intro now statuses
    simp [GetJobHealth, List.countP_eq_zero]

/-- Claim C7 witness: the characterizations applied to a concrete
two-job snapshot in which neither job is failed. -/
theorem C7_witness :
    (jobFailed (mkJobStatus 10 6) = true ↔
      (mkJobStatus 10 6).runCount < 2 * (mkJobStatus 10 6).errorCount) ∧
    ((GetJobHealth 0 [mkJobStatus 10 5, mkJobStatus 7 0]).healthy = true ↔
      ∀ s ∈ [mkJobStatus 10 5, mkJobStatus 7 0], jobFailed s = false) :=
  ⟨C7_health_failed_iff.1 (mkJobStatus 10 6),
    C7_health_failed_iff.2.1 0 [mkJobStatus 10 5, mkJobStatus 7 0]⟩

/-- Claim C8: before the scheduler is started (`jobManager` nil), the
manual trigger of each known job, the get-config operation and the
update-config operation all surface a distinct manager-not-initialized
error to the caller (a 500 response, distinguishable from the 400
unknown-name validation error), no trigger succeeds, and every operation
is a total function of its inputs (no panic). -/
theorem C8_not_started_errors :
    (∀ jobName : String,
      jobName = "rating-reminder" ∨ jobName = "auto-release" ∨
          jobName = "dispute-escalation" →
        TriggerJob none jobName =
          { status := 500, success := false,
            error := some "job manager not initialized" }) ∧
    GetJobConfigHandler none =
      { status := 500, success := false,
        error := some "Job manager not initialized" } ∧
    (∀ (statuses : List (String × JobStatus)) (now : Int)
        (newConfig : JobConfig),
      UpdateJobConfigHandler none statuses now newConfig =
        { status := 500, success := false,
          error := some "job manager not initialized" }) ∧
    (∀ jobName : String,
      TriggerJob none jobName ≠
        { status := 200, success := true, error := none }) ∧
    TriggerJob none "unknown-job" =
      { status := 400, success := false, error := some "Invalid job name" } := by
  refine ⟨?_, rfl, fun _ _ _ => rfl, ?_, by decide⟩
  · intro jobName h
    rcases h with h | h | h <;> subst h <;> rfl
  · intro jobName
    unfold TriggerJob
    split
    · decide
    · split
      · decide
      · split
        · decide
        · decide

/-- Claim C8 witness: triggering the auto-release job before start
returns the manager-not-initialized error response. -/
theorem C8_witness :
    TriggerJob none "auto-release" =
      { status := 500, success := false,
        error := some "job manager not initialized" } :=
  C8_not_started_errors.1 "auto-release" (Or.inr (Or.inl rfl))

/-- Claim C9 counterexample: evaluating the eligibility decision is not
side-effect free — on a poor rating it performs an external call (the
Slack manual-review webhook post), and on an approved rating it mutates
the escrow record by setting `ratingApproved` — refuting the
no-side-effects part of the claim. -/
theorem C9_counterexample :
    (isEligibleForAutoRelease 5
        (mkEscrow EscrowStatus.held 0 true 2 3)).alerts ≠ [] ∧
    (isEligibleForAutoRelease 5
        (mkEscrow EscrowStatus.held 0 true 4 3)).escrow ≠
      mkEscrow EscrowStatus.held 0 true 4 3 := by
  constructor <;> decide

/-- Claim C9 (amended): the eligibility boolean is a deterministic
function of the six inputs (status, releaseEligibleAt, ratingReceived,
actualRating, minRatingRequired, now) — two escrows agreeing on those
fields get the same decision — but the evaluation is not free of side
effects: it sets `ratingApproved := true` on the record in the approved
branch and posts a Slack alert in the poor-rating branch. -/
theorem C9_eligibility_deterministic (now : Int)
    (e1 e2 : EscrowTransaction)
    (h1 : e1.status = e2.status)
    (h2 : e1.releaseEligibleAt = e2.releaseEligibleAt)
    (h3 : e1.ratingReceived = e2.ratingReceived)
    (h4 : e1.actualRating = e2.actualRating)
    (h5 : e1.minRatingRequired = e2.minRatingRequired) :
    (isEligibleForAutoRelease now e1).eligible =
      (isEligibleForAutoRelease now e2).eligible := by
  unfold isEligibleForAutoRelease
  rw [h1, h2, h3, h4, h5]
  repeat' split
  all_goals rfl

/-- Claim C9 witness: two escrows differing only in id, amount and other
unlisted fields get the same eligibility decision. -/
theorem C9_witness :
    (isEligibleForAutoRelease 7
        (mkEscrow EscrowStatus.held 0 false 0 3)).eligible =
      (isEligibleForAutoRelease 7
        { mkEscrow EscrowStatus.held 0 false 0 3 with
            id := "other", amount := 99 }).eligible :=
  C9_eligibility_deterministic 7 (mkEscrow EscrowStatus.held 0 false 0 3)
    { mkEscrow EscrowStatus.held 0 false 0 3 with
        id := "other", amount := 99 } rfl rfl rfl rfl rfl

/-- Claim C10: the eligibility decision checks the status only against
`disputed` — any other status (released, refunded, resolved,
pending_rating, …) with no rating and past the grace deadline is
eligible — while the restriction of auto-release to held escrows comes
from the store query (status = held and releaseEligibleAt ≤ now) and the
status guard inside `ProcessEscrowRelease`. -/
theorem C10_status_only_disputed :
    (∀ (now : Int) (e : EscrowTransaction),
      e.status ≠ EscrowStatus.disputed → e.ratingReceived = false →
        e.releaseEligibleAt + graceNs < now →
        (isEligibleForAutoRelease now e).eligible = true) ∧
    (∀ (now : Int) (stored : List EscrowTransaction)
        (e : EscrowTransaction),
      e ∈ GetEligibleEscrowReleases now stored →
        e.status = EscrowStatus.held ∧ e.releaseEligibleAt ≤ now) ∧
    (∀ (gateway store : Except String Unit) (now : Int)
        (e : EscrowTransaction) (reason : String),
      e.status ≠ EscrowStatus.held → e.status ≠ EscrowStatus.approved →
        (ProcessEscrowRelease gateway store now e reason).result =
          .error ("escrow cannot be released, current status: " ++
            e.status.str)) := by
  refine ⟨?_, ?_, ?_⟩
  · intro now e hs hr h
    have hg : (0 : Int) < graceNs := by norm_num [graceNs, hourNs]
    unfold isEligibleForAutoRelease
    rw [if_neg (by omega : ¬ now < e.releaseEligibleAt), if_neg hs, hr]
    simp only [Bool.false_eq_true, if_false]
    rw [if_pos h]
  · intro now stored e h
    simp only [GetEligibleEscrowReleases, eligibleQuery, List.mem_filter,
      Bool.and_eq_true, decide_eq_true_eq] at h
    exact h.2
  · intro gateway store now e reason h1 h2
    unfold ProcessEscrowRelease
    rw [if_pos ⟨h1, h2⟩]

/-- Claim C10 witness: a released escrow with no rating past the grace
deadline is judged eligible by the decision function; a held escrow is
returned by the query filter; a refunded escrow is rejected by the
manual-release guard. -/
theorem C10_witness :
    (isEligibleForAutoRelease (graceNs + 1)
        (mkEscrow EscrowStatus.released 0 false 0 3)).eligible = true ∧
    ((mkEscrow EscrowStatus.held 0 false 0 3).status = EscrowStatus.held ∧
      (mkEscrow EscrowStatus.held 0 false 0 3).releaseEligibleAt ≤ 5) ∧
    (ProcessEscrowRelease (.ok ()) (.ok ()) 5
        (mkEscrow EscrowStatus.refunded 0 false 0 3) "manual").result =
      .error ("escrow cannot be released, current status: " ++
        (mkEscrow EscrowStatus.refunded 0 false 0 3).status.str) :=
  ⟨C10_status_only_disputed.1 (graceNs + 1)
      (mkEscrow EscrowStatus.released 0 false 0 3) (by decide) rfl
      (by decide),
    C10_status_only_disputed.2.1 5 [mkEscrow EscrowStatus.held 0 false 0 3]
      (mkEscrow EscrowStatus.held 0 false 0 3) (by decide),
    C10_status_only_disputed.2.2 (.ok ()) (.ok ()) 5
      (mkEscrow EscrowStatus.refunded 0 false 0 3) "manual"
      (by decide) (by decide)⟩

end GoalHero
